import Mathlib

/-!
Verification development for the sqlongo repository (a small Mongo-style
ORM over sqlite3).  The repository carries three revisions of the same
module:

* `src/unnamed/part_001` — the newest revision (v1.2.0): a global
  `createTableTasks` promise chain as the readiness barrier, a permissive
  `filteredKeys`, `count` with argument shifting, `remove` with a
  limit/offset subselect.  Embedded below in namespace `Sqlongo`.
* `src/index.js` — a revision with a strict `filteredKeys` (throws
  `no such column: k` on the first unknown key), a per-table
  `__ready__` flag and `checkAvailability`.  Embedded in namespace
  `SqlongoIndex`.
* `src/unnamed/part_000` — the oldest revision; its `parseCriteria`
  joins array operands directly into the SQL text instead of emitting
  `?` placeholders.  Embedded in namespace `SqlongoV0`.

JavaScript objects are embedded as association lists (key order is the
object's insertion order; keys are unique in any list built from a real
JS object).  JS strings are Lean `String`s, JS numbers in scope here are
integers, and the JS values that flow into SQL parameters are modelled
by the `Scalar` type below.
-/

/-- A JS scalar value as it can appear in a row, a criteria object or a
parameter list: a number, a string, or null (also standing for
`undefined` where the source can produce it). -/
inductive Scalar where
  | int (n : Int)
  | str (s : String)
  | null
deriving DecidableEq, Repr

/-- The operand of a single comparison operator inside an operator
object: either a scalar or an array of scalars (`Array.isArray` decides
between the two branches in the source). -/
inductive Operand where
  | scalar (v : Scalar)
  | arr (vs : List Scalar)
deriving DecidableEq, Repr

/-- The value attached to one column of a criteria object: a bare scalar
(equality match) or an operator object (`typeof criterion === 'object'`
in the source). -/
inductive Criterion where
  | scalar (v : Scalar)
  | obj (entries : List (String × Operand))
deriving DecidableEq, Repr

/-- A criteria object: column name to criterion, in insertion order. -/
abbrev Criteria := List (String × Criterion)

/-- A schema object: column name to its (opaque) column-type text. -/
abbrev Schema := List (String × String)

/-- A row held by the store: column name to scalar. -/
abbrev Row := List (String × Scalar)

/-- A thrown JS error: either an ordinary `Error` with its message, or a
`TypeError` (as raised by `Object.keys(undefined)` and the like). -/
inductive JsErr where
  | error (msg : String)
  | typeError (msg : String)
deriving DecidableEq, Repr

/-- Model of `Object.keys` on an association list. -/
def keysOf (l : List (String × α)) : List String := l.map Prod.fst

/-- Property access `obj[k]` on an association list (keys of a JS object
are unique, so the first binding is the binding). -/
def jsLookup (l : List (String × α)) (k : String) : Option α :=
  (l.find? (fun p => p.1 == k)).map Prod.snd

/-- Model of `Array.prototype.join(sep)` on a list of strings. -/
def joinSep (sep : String) : List String → String
  | [] => ""
  | [x] => x
  | x :: y :: xs => x ++ sep ++ joinSep sep (y :: xs)

/-- Number of `?` parameter placeholders contained in a SQL fragment. -/
def countQ (s : String) : Nat := s.data.count '?'

/-- Model of `Array.prototype.indexOf` (JS semantics: `-1` when absent). -/
def jsIndexOf (l : List String) (x : String) : Int :=
  match l with
  | [] => -1
  | y :: ys =>
      if y = x then 0
      else
        let r := jsIndexOf ys x
        if r = -1 then -1 else r + 1

/-- A rendering of a scalar as SQL text, used by the reference
compilation `parseCriteriaInline` that inlines every parameter at its
placeholder. -/
def renderScalar : Scalar → String
  | .int n => toString n
  | .str s => "'" ++ s ++ "'"
  | .null => "null"

/-- How `Array.prototype.join` stringifies an element (numbers print
bare, strings are taken verbatim, null prints as the empty string);
this is the rendering the part_000 revision leaks into its SQL text. -/
def jsToString : Scalar → String
  | .int n => toString n
  | .str s => s
  | .null => ""

/-- Positional binding: walk the fragment left to right and replace each
`?` with the rendering of the next parameter; parameters beyond the
placeholders are returned as leftovers, placeholders beyond the
parameters stay in place. -/
def replaceQs : List Char → List Scalar → List Char × List Scalar
  | [], vs => ([], vs)
  | c :: cs, vs =>
      if c = '?' then
        match vs with
        | v :: vs' =>
            let r := replaceQs cs vs'
            ((renderScalar v).data ++ r.1, r.2)
        | [] =>
            let r := replaceQs cs []
            ('?' :: r.1, r.2)
      else
        let r := replaceQs cs vs
        (c :: r.1, r.2)

namespace Sqlongo

/-- The fixed operator table of the source (`CRITERION_KEYS`). -/
def CRITERION_KEYS : List (String × String) :=
  [("$like", "like"), ("$glob", "glob"), ("$gt", ">"), ("$lt", "<"),
   ("$gte", ">="), ("$lte", "<="), ("$ne", "<>"), ("$eq", "="),
   ("$not", "is not"), ("$in", "in")]

/-- part_001 `filteredKeys`: keep the untrusted keys that appear among
the trusted keys (permissive: unknown keys are silently dropped). -/
def filteredKeys (untrustedObject : List (String × α))
    (trustedObject : List (String × β)) : List String :=
  (keysOf untrustedObject).filter (fun k => (keysOf trustedObject).contains k)

/-- One fragment/parameter unit pushed by the inner `filteredCriterionKeys.map`
loop of part_001 `parseCriteria` for the operator `criterionKey` of the
operator object `criterion` on `column`.  The two `.null` completions mirror
JS `undefined` on lookups that cannot miss (the key came from the object). -/
def compileUnit (column : String) (criterion : List (String × Operand))
    (criterionKey : String) : String × List Scalar :=
  let opText := (jsLookup CRITERION_KEYS criterionKey).getD ""
  match jsLookup criterion criterionKey with
  | some (Operand.arr vs) =>
      (column ++ " " ++ opText ++ " (" ++
        joinSep ", " (vs.map fun _ => "?") ++ ")", vs)
  | some (Operand.scalar v) => (column ++ " " ++ opText ++ " ?", [v])
  | none => (column ++ " " ++ opText ++ " ?", [Scalar.null])

/-- The fragment/parameter units pushed for one recognized column of the
criteria object (the body of the outer `keys.map` loop of part_001
`parseCriteria`). -/
def columnUnits (criteriaObject : Criteria) (column : String) :
    List (String × List Scalar) :=
  match jsLookup criteriaObject column with
  | some (Criterion.obj criterion) =>
      (filteredKeys criterion CRITERION_KEYS).map (compileUnit column criterion)
  | some (Criterion.scalar v) => [(column ++ " = ?", [v])]
  | none => [(column ++ " = ?", [Scalar.null])]

/-- part_001 `parseCriteria`: filter the criteria's columns against the
schema, compile every surviving column's criterion, join the fragments
with `" and "` and concatenate the parameter lists in the same order. -/
def parseCriteria (criteriaObject : Criteria) (schemaObject : Schema) :
    String × List Scalar :=
  let keys := filteredKeys criteriaObject schemaObject
  let units := keys.flatMap (columnUnits criteriaObject)
  (joinSep " and " (units.map Prod.fst), (units.map Prod.snd).flatten)

/-- Reference rendition of a single operator unit with the parameter
rendered at its placeholder, used to state that parameters bind to
placeholders in left-to-right order. -/
def compileUnitInline (column : String) (criterion : List (String × Operand))
    (criterionKey : String) : String :=
  let opText := (jsLookup CRITERION_KEYS criterionKey).getD ""
  match jsLookup criterion criterionKey with
  | some (Operand.arr vs) =>
      column ++ " " ++ opText ++ " (" ++ joinSep ", " (vs.map renderScalar) ++ ")"
  | some (Operand.scalar v) => column ++ " " ++ opText ++ " " ++ renderScalar v
  | none => column ++ " " ++ opText ++ " " ++ renderScalar Scalar.null

/-- Reference rendition of `columnUnits` with parameters inlined. -/
def columnUnitsInline (criteriaObject : Criteria) (column : String) : List String :=
  match jsLookup criteriaObject column with
  | some (Criterion.obj criterion) =>
      (filteredKeys criterion CRITERION_KEYS).map (compileUnitInline column criterion)
  | some (Criterion.scalar v) => [column ++ " = " ++ renderScalar v]
  | none => [column ++ " = " ++ renderScalar Scalar.null]

/-- Reference rendition of `parseCriteria` that inlines every parameter
at the position of its placeholder instead of emitting `?`. -/
def parseCriteriaInline (criteriaObject : Criteria) (schemaObject : Schema) : String :=
  let keys := filteredKeys criteriaObject schemaObject
  joinSep " and " (keys.flatMap (columnUnitsInline criteriaObject))

/-- Model of `criteria && where (criteria)` in the source: the empty
fragment (a falsy string) produces no `where` clause. -/
def whereWrap (criteria : String) : String :=
  if criteria = "" then "" else "where (" ++ criteria ++ ")"

/-- SQLite `OFFSET o` on a result list (a negative offset skips nothing). -/
def applyOffset (offset : Int) (xs : List α) : List α := xs.drop offset.toNat

/-- SQLite `LIMIT n` on a result list (`-1`, the source's default, means
no limit, as does any negative argument). -/
def applyLimit (limit : Int) (xs : List α) : List α :=
  if limit < 0 then xs else xs.take limit.toNat

/-- The store's evaluation of `select ... from T [where (...)] limit ? offset ?`
over its rows, parameterized by the row predicate `p` denoted by the
compiled where-fragment and its bound parameters. -/
def sqlSelect (p : α → Bool) (rows : List α) (limit offset : Int) : List α :=
  applyLimit limit (applyOffset offset (rows.filter p))

/-- The result of part_001 `find`: `db.get` (taken when `limit === 1`)
yields a single row or the not-found sentinel `undefined`; `db.all`
yields the ordered result list. -/
inductive FindResult where
  | one (r : Option Row)
  | many (rs : List Row)
deriving DecidableEq, Repr

/-- part_001 `find`, modelled against a store holding `rows`.  `eval`
gives the store's row-predicate semantics of a compiled where-fragment
and its parameter list (the fragment is compiled by `parseCriteria`
exactly as in the source; executing it is the external store's job). -/
def find (eval : String → List Scalar → Row → Bool) (rows : List Row)
    (criteriaObj : Criteria) (schema : Schema) (limit offset : Int) : FindResult :=
  let r := parseCriteria criteriaObj schema
  let res := sqlSelect (eval r.1 r.2) rows limit offset
  if limit = 1 then .one res.head? else .many res

/-- part_001 `remove`, modelled against a store holding rowid-tagged
rows: `delete from T where rowid in (select rowid from T [where (...)]
limit ? offset ?)`. -/
def remove (eval : String → List Scalar → Row → Bool) (rows : List (Nat × Row))
    (criteriaObj : Criteria) (schema : Schema) (limit offset : Int) : List (Nat × Row) :=
  let r := parseCriteria criteriaObj schema
  let selected := (sqlSelect (fun q => eval r.1 r.2 q.2) rows limit offset).map Prod.fst
  rows.filter (fun q => !(selected.contains q.1))

/-- JS `!` applied to a number: only `0` (and `NaN`, not representable
here) is falsy. -/
def jsNotNum (n : Int) : Bool := n = 0

/-- The first argument of part_001 `count`: a column name, or a criteria
object (`typeof column === 'object'`), which shifts the arguments. -/
inductive CountArg where
  | col (s : String)
  | obj (c : Criteria)
deriving DecidableEq, Repr

/-- part_001 `count`, compiled to its SQL text and parameter list.  When
the first argument is an object it becomes the criteria and the counted
column falls back to `*`; the column-existence guard is the source's
`column !== '*' && !Object.keys(schemas[table]).indexOf(column)`. -/
def count (table : String) (column : CountArg) (criteriaObj : Criteria)
    (schema : Schema) : Except JsErr (String × List Scalar) :=
  let shifted := match column with
    | .obj c => ("*", c)
    | .col s => (s, criteriaObj)
  let column := shifted.1
  let criteriaObj := shifted.2
  if (column != "*") && jsNotNum (jsIndexOf (keysOf schema) column) then
    .error (.error ("count: column " ++ column ++ " does not exist"))
  else
    let r := parseCriteria criteriaObj schema
    .ok ("select count(" ++ column ++ ") count from " ++ table ++ " " ++ whereWrap r.1, r.2)

/-- part_001 `distinct`, compiled to its SQL text and parameter list; the
column guard is the source's `!Object.keys(schemas[table]).indexOf(column)`. -/
def distinct (table : String) (column : String) (criteriaObj : Criteria)
    (schema : Schema) (limit offset : Int) : Except JsErr (String × List Scalar) :=
  if jsNotNum (jsIndexOf (keysOf schema) column) then
    .error (.error ("distinct: column " ++ column ++ " does not exist"))
  else
    let r := parseCriteria criteriaObj schema
    .ok ("select distinct " ++ column ++ " from " ++ table ++ " " ++ whereWrap r.1 ++
          " limit ? offset ?",
         r.2 ++ [Scalar.int limit, Scalar.int offset])

/-- The row argument of `insert`/`update`: an object, or a value whose
`typeof` is some `t ≠ "object"`. -/
inductive RowArg where
  | obj (r : Row)
  | nonObject (t : String)
deriving DecidableEq, Repr

/-- part_001 `insert`, compiled to its SQL text and parameter list: the
row's keys are filtered permissively against the schema, values follow
the surviving keys in order. -/
def insert (table : String) (row : RowArg) (schema : Schema) :
    Except JsErr (String × List Scalar) :=
  match row with
  | .nonObject _ => .error (.error "insert: row should be an object")
  | .obj r =>
      let keys := filteredKeys r schema
      let values := keys.map (fun k => (jsLookup r k).getD Scalar.null)
      let placeholders := joinSep ", " (keys.map fun _ => "?")
      .ok ("insert into " ++ table ++ "(" ++ joinSep ", " keys ++ ") values(" ++
            placeholders ++ ")", values)

/-- The `schema` right-hand side of a `db.table = schema` assignment: an
object, `null` (whose JS `typeof` is also `"object"`), or a primitive
whose `typeof` is some `t ≠ "object"`. -/
inductive SchemaArg where
  | obj (m : Schema)
  | nul
  | prim (t : String)
deriving DecidableEq, Repr

/-- Model of `typeof` on a `SchemaArg`. -/
def jsTypeofSchemaArg : SchemaArg → String
  | .obj _ => "object"
  | .nul => "object"
  | .prim t => t

/-- Assignment `obj[k] = v` on an association list. -/
def jsSet (l : List (String × α)) (k : String) (v : α) : List (String × α) :=
  if (keysOf l).contains k then l.map (fun p => if p.1 = k then (k, v) else p)
  else l ++ [(k, v)]

/-- The `create table if not exists` statement issued by the `set` trap
(whitespace of the source template normalized to single spaces). -/
def createStatement (table : String) (schema : Schema) : String :=
  "create table if not exists " ++ table ++ " ( " ++
    joinSep ", " ((keysOf schema).map (fun k => k ++ " " ++ (jsLookup schema k).getD "")) ++
    " )"

/-- The database-handle state of part_001: the declared schemas and the
`createTableTasks` chain, modelled as the list of creation statements
issued so far and not yet known to have resolved. -/
structure DbState where
  schemas : List (String × Schema)
  pendingCreates : List String
deriving DecidableEq, Repr

/-- part_001 `set` trap: reject any `schema` whose `typeof` is not
`"object"`; otherwise store the schema and chain the creation statement
onto `createTableTasks` without waiting for it.  For `schema = null`
(also of `typeof "object"`) the source stores it and then throws a
`TypeError` from `Object.keys(null)` while building the template, before
`db.run` is called. -/
def setTable (db : DbState) (table : String) (schema : SchemaArg) : Except JsErr DbState :=
  if jsTypeofSchemaArg schema ≠ "object" then
    .error (.error ("db." ++ table ++ ": schema must be an object"))
  else
    match schema with
    | .obj m =>
        .ok { schemas := jsSet db.schemas table m,
              pendingCreates := db.pendingCreates ++ [createStatement table m] }
    | .nul => .error (.typeError "Cannot convert undefined or null to object")
    | .prim _ => .error (.typeError "")

/-- part_001 `find` at the database-handle level, covering the case of a
table whose schema was never declared: the proxy `get` trap of part_001
performs no declaration check, so `parseCriteria(criteriaObj,
schemas[table])` reaches `Object.keys(undefined)` inside `filteredKeys`
and throws a `TypeError`. -/
def dbFind (db : DbState) (table : String) (criteriaObj : Criteria)
    (limit offset : Int) : Except JsErr (String × List Scalar) :=
  match jsLookup db.schemas table with
  | none => .error (.typeError "Cannot convert undefined or null to object")
  | some schema =>
      let r := parseCriteria criteriaObj schema
      .ok ("select * from " ++ table ++ " " ++ whereWrap r.1 ++ " limit ? offset ?",
           r.2 ++ [Scalar.int limit, Scalar.int offset])

/-- part_001 `insert` at the database-handle level: like `dbFind`, the
missing-schema case reaches `Object.keys(undefined)` and throws a
`TypeError` (after the row's own `typeof` check). -/
def dbInsert (db : DbState) (table : String) (row : RowArg) :
    Except JsErr (String × List Scalar) :=
  match row with
  | .nonObject _ => .error (.error "insert: row should be an object")
  | .obj r =>
      match jsLookup db.schemas table with
      | none => .error (.typeError "Cannot convert undefined or null to object")
      | some schema => insert table (.obj r) schema

/-- One step of a data-operation method body: suspend on the
`createTableTasks` barrier, or hand one statement to the store. -/
inductive Action where
  | awaitCreates
  | sql (stmt : String)
deriving DecidableEq, Repr

/-- The six data operations of the part_001 table facade. -/
inductive DataOp where
  | find | count | distinct | insert | remove | update
deriving DecidableEq, Repr

/-- The SQL template each operation hands to the store (source template,
whitespace normalized). -/
def opStatement : DataOp → String
  | .find => "select * from ${table} ${criteria} limit ? offset ?"
  | .count => "select count(${column}) count from ${table} ${criteria}"
  | .distinct => "select distinct ${column} from ${table} ${criteria} limit ? offset ?"
  | .insert => "insert into ${table}(${keys}) values(${placeholders})"
  | .remove => "delete from ${table} where rowid in (select rowid from ${table} ${criteria} limit ? offset ?)"
  | .update => "update ${table} set ${operations} ${criteria}"

/-- The body of every part_001 data operation, as a sequence of actions:
`await createTableTasks` first, then the single store call. -/
def opProgram (op : DataOp) : List Action :=
  [Action.awaitCreates, Action.sql (opStatement op)]

/-- Scheduler state for the readiness barrier: how many of the `N`
creation tasks issued so far have resolved, and the operation's program
counter. -/
structure Sys where
  done : Nat
  pc : Nat
deriving DecidableEq, Repr

/-- Interleaving semantics: a creation task may resolve at any time; the
operation passes `awaitCreates` only once every issued creation task has
resolved, and otherwise executes its current action in order. -/
inductive Step (N : Nat) (prog : List Action) : Sys → Sys → Prop where
  | finishCreate (s : Sys) (h : s.done < N) : Step N prog s ⟨s.done + 1, s.pc⟩
  | runAwait (s : Sys) (h : prog[s.pc]? = some Action.awaitCreates) (hd : s.done = N) :
      Step N prog s ⟨s.done, s.pc + 1⟩
  | runSql (s : Sys) (stmt : String) (h : prog[s.pc]? = some (Action.sql stmt)) :
      Step N prog s ⟨s.done, s.pc + 1⟩

/-- Reachability in the interleaving semantics. -/
def Reaches (N : Nat) (prog : List Action) : Sys → Sys → Prop :=
  Relation.ReflTransGen (Step N prog)

end Sqlongo

namespace SqlongoIndex

/-- index.js `filteredKeys`: strict — the first untrusted key not among
the trusted keys is reported as `no such column: k`.  (JS quirk kept: an
unknown key that is the empty string is falsy and escapes the guard.) -/
def filteredKeys (untrustedObject : List (String × α))
    (trustedObject : List (String × β)) : Except JsErr (List String) :=
  let trustedKeys := keysOf trustedObject
  let untrustedKeys := keysOf untrustedObject
  match untrustedKeys.find? (fun k => !(trustedKeys.contains k)) with
  | some k =>
      if k = "" then .ok untrustedKeys
      else .error (.error ("no such column: " ++ k))
  | none => .ok untrustedKeys

/-- index.js `parseCriteria`: the same compilation as part_001 (the
operator table and unit compilation are textually identical there), but
every key filtering is strict and can throw. -/
def parseCriteria (criteriaObject : Criteria) (schemaObject : Schema) :
    Except JsErr (String × List Scalar) := do
  let keys ← filteredKeys criteriaObject schemaObject
  let units ← keys.foldlM (fun acc column => do
    match jsLookup criteriaObject column with
    | some (Criterion.obj criterion) =>
        let fck ← filteredKeys criterion Sqlongo.CRITERION_KEYS
        pure (acc ++ fck.map (Sqlongo.compileUnit column criterion))
    | some (Criterion.scalar v) => pure (acc ++ [(column ++ " = ?", [v])])
    | none => pure (acc ++ [(column ++ " = ?", [Scalar.null])]))
    ([] : List (String × List Scalar))
  pure (joinSep " and " (units.map Prod.fst), (units.map Prod.snd).flatten)

/-- A value of an index.js schema object: the declared column type
text, or the boolean `__ready__` marker the library writes into it. -/
inductive SchemaVal where
  | str (s : String)
  | bool (b : Bool)
deriving DecidableEq, Repr

/-- The readiness marker key of index.js. -/
def READY_KEY : String := "__ready__"

/-- JS truthiness of a possibly-absent schema value. -/
def jsTruthy : Option SchemaVal → Bool
  | none => false
  | some (.bool b) => b
  | some (.str s) => s ≠ ""

/-- index.js `checkAvailability`: fail when the table has no declared
schema, or when its creation has not been confirmed yet. -/
def checkAvailability (schemas : List (String × List (String × SchemaVal)))
    (table : String) : Except JsErr Unit :=
  match jsLookup schemas table with
  | none => .error (.error ("db." ++ table ++ " is called before setting its schema"))
  | some s =>
      if jsTruthy (jsLookup s READY_KEY) then .ok ()
      else .error (.error ("db." ++ table ++
        " is called before its schema is fully synchronized with database"))

end SqlongoIndex

namespace SqlongoV0

/-- part_000's unit compilation: the array branch joins the operand
values themselves into the fragment (`criterion[criterionKey].join(', ')`,
with no `.map(k => '?')`) while still appending them to the parameter
list. -/
def compileUnit (column : String) (criterion : List (String × Operand))
    (criterionKey : String) : String × List Scalar :=
  let opText := (jsLookup Sqlongo.CRITERION_KEYS criterionKey).getD ""
  match jsLookup criterion criterionKey with
  | some (Operand.arr vs) =>
      (column ++ " " ++ opText ++ " (" ++ joinSep ", " (vs.map jsToString) ++ ")", vs)
  | some (Operand.scalar v) => (column ++ " " ++ opText ++ " ?", [v])
  | none => (column ++ " " ++ opText ++ " ?", [Scalar.null])

/-- part_000 `parseCriteria` (strict `filteredKeys`, as in index.js, and
the value-joining array branch of `SqlongoV0.compileUnit`). -/
def parseCriteria (criteriaObject : Criteria) (schemaObject : Schema) :
    Except JsErr (String × List Scalar) := do
  let keys ← SqlongoIndex.filteredKeys criteriaObject schemaObject
  let units ← keys.foldlM (fun acc column => do
    match jsLookup criteriaObject column with
    | some (Criterion.obj criterion) =>
        let fck ← SqlongoIndex.filteredKeys criterion Sqlongo.CRITERION_KEYS
        pure (acc ++ fck.map (compileUnit column criterion))
    | some (Criterion.scalar v) => pure (acc ++ [(column ++ " = ?", [v])])
    | none => pure (acc ++ [(column ++ " = ?", [Scalar.null])]))
    ([] : List (String × List Scalar))
  pure (joinSep " and " (units.map Prod.fst), (units.map Prod.snd).flatten)

end SqlongoV0

/-! ### Placeholder/parameter correspondence machinery -/

/-- A fragment `frag` binds exactly the parameters `vals`, and binding
them left-to-right renders it as `inl`: whatever fragment text and
parameters follow, substitution consumes exactly `vals` over `frag` and
produces exactly `inl`'s text. -/
def UnitOk (frag : String) (vals : List Scalar) (inl : String) : Prop :=
  ∀ tail vs, replaceQs (frag.data ++ tail) (vals ++ vs) =
    (inl.data ++ (replaceQs tail vs).1, (replaceQs tail vs).2)

theorem replaceQs_qfree (a : List Char) (h : a.count '?' = 0) :
    ∀ (tail : List Char) (vs : List Scalar),
      replaceQs (a ++ tail) vs = (a ++ (replaceQs tail vs).1, (replaceQs tail vs).2) := by
  induction a with
  | nil => intro tail vs; simp
  | cons c cs ih =>
      intro tail vs
      rw [List.count_cons] at h
      have hc : ¬(c = '?') := by
        intro e; subst e; simp at h
      have hcs : cs.count '?' = 0 := by omega
      simp [replaceQs, hc, ih hcs tail vs]

theorem unitOk_qfree (a : String) (h : countQ a = 0) : UnitOk a [] a := by
  intro tail vs
  simpa using replaceQs_qfree a.data h tail vs

theorem unitOk_q (v : Scalar) : UnitOk "?" [v] (renderScalar v) := by
  intro tail vs
  have hd : ("?" : String).data = ['?'] := rfl
  simp [hd, replaceQs]

theorem unitOk_append {f1 f2 i1 i2 : String} {v1 v2 : List Scalar}
    (h1 : UnitOk f1 v1 i1) (h2 : UnitOk f2 v2 i2) :
    UnitOk (f1 ++ f2) (v1 ++ v2) (i1 ++ i2) := by
  intro tail vs
  have e1 : (f1 ++ f2).data ++ tail = f1.data ++ (f2.data ++ tail) := by
    simp [String.data_append]
  rw [e1, List.append_assoc v1 v2 vs, h1 (f2.data ++ tail) (v2 ++ vs), h2 tail vs]
  simp [String.data_append]

theorem unitOk_placeholders : ∀ vs : List Scalar,
    UnitOk (joinSep ", " (vs.map fun _ => "?")) vs (joinSep ", " (vs.map renderScalar))
  | [] => by simpa [joinSep] using unitOk_qfree "" (by decide)
  | [v] => by simpa [joinSep] using unitOk_q v
  | v :: w :: rest => by
      have ih := unitOk_placeholders (w :: rest)
      have h := unitOk_append (unitOk_append (unitOk_q v) (unitOk_qfree ", " (by decide))) ih
      simp only [List.map_cons, joinSep]
      simpa using h

theorem countQ_append (a b : String) : countQ (a ++ b) = countQ a + countQ b := by
  simp [countQ, String.data_append, List.count_append]

theorem countQ_joinSep (sep : String) (h : countQ sep = 0) :
    ∀ l : List String, countQ (joinSep sep l) = (l.map countQ).sum
  | [] => by simp [joinSep, countQ]
  | [x] => by simp [joinSep]
  | x :: y :: xs => by
      have ih := countQ_joinSep sep h (y :: xs)
      simp only [joinSep, List.map_cons, List.sum_cons] at ih ⊢
      rw [countQ_append, countQ_append, h, ih]
      omega

theorem countQ_placeholders : ∀ vs : List Scalar,
    countQ (joinSep ", " (vs.map fun _ => "?")) = vs.length
  | [] => by decide
  | [v] => by
      simp only [List.map_cons, List.map_nil, joinSep, List.length_cons, List.length_nil]
      rfl
  | v :: w :: rest => by
      have ih := countQ_placeholders (w :: rest)
      have h1 : countQ "?, " = 1 := rfl
      have h2 : countQ "?" = 1 := rfl
      have h3 : countQ ", " = 0 := rfl
      simp only [List.map_cons, joinSep, List.length_cons] at ih ⊢
      simp only [countQ_append, ih, h1, h2, h3]
      omega

theorem countQ_opText (ck : String) :
    countQ ((jsLookup Sqlongo.CRITERION_KEYS ck).getD "") = 0 := by
  cases h : jsLookup Sqlongo.CRITERION_KEYS ck with
  | none => decide
  | some t =>
      obtain ⟨p, hp, hpt⟩ := Option.map_eq_some'.mp h
      have hmem : p ∈ Sqlongo.CRITERION_KEYS := List.mem_of_find?_eq_some hp
      have hall : ∀ q ∈ Sqlongo.CRITERION_KEYS, countQ q.2 = 0 := by decide
      simpa [hpt] using hall p hmem

theorem unitOk_eq_scalar (col : String) (hcol : countQ col = 0) (v : Scalar) :
    UnitOk (col ++ " = ?") [v] (col ++ " = " ++ renderScalar v) := by
  have hsub : UnitOk (" = " ++ "?") [v] (" = " ++ renderScalar v) :=
    unitOk_append (unitOk_qfree " = " (by decide)) (unitOk_q v)
  have e : (" = " ++ "?" : String) = " = ?" := rfl
  rw [e] at hsub
  have full := unitOk_append (unitOk_qfree col hcol) hsub
  have e2 : col ++ (" = " ++ renderScalar v) = col ++ " = " ++ renderScalar v :=
    (String.append_assoc col " = " (renderScalar v)).symm
  rw [e2] at full
  simpa using full

theorem countQ_eq_scalar (col : String) (hcol : countQ col = 0) :
    countQ (col ++ " = ?") = 1 := by
  have h1 : countQ " = ?" = 1 := rfl
  rw [countQ_append, hcol, h1]

theorem unitOk_op_scalar (col op : String) (hcol : countQ col = 0) (hop : countQ op = 0)
    (v : Scalar) :
    UnitOk (col ++ " " ++ op ++ " ?") [v] (col ++ " " ++ op ++ " " ++ renderScalar v) := by
  have hsub : UnitOk (" " ++ "?") [v] (" " ++ renderScalar v) :=
    unitOk_append (unitOk_qfree " " (by decide)) (unitOk_q v)
  have e : (" " ++ "?" : String) = " ?" := rfl
  rw [e] at hsub
  have full := unitOk_append
    (unitOk_append (unitOk_append (unitOk_qfree col hcol) (unitOk_qfree " " (by decide)))
      (unitOk_qfree op hop)) hsub
  have e2 : col ++ " " ++ op ++ (" " ++ renderScalar v) =
      col ++ " " ++ op ++ " " ++ renderScalar v :=
    (String.append_assoc (col ++ " " ++ op) " " (renderScalar v)).symm
  rw [e2] at full
  simpa using full

theorem unitOk_op_arr (col op : String) (hcol : countQ col = 0) (hop : countQ op = 0)
    (vs : List Scalar) :
    UnitOk (col ++ " " ++ op ++ " (" ++ joinSep ", " (vs.map fun _ => "?") ++ ")") vs
      (col ++ " " ++ op ++ " (" ++ joinSep ", " (vs.map renderScalar) ++ ")") := by
  have full := unitOk_append
    (unitOk_append
      (unitOk_append (unitOk_append (unitOk_qfree col hcol) (unitOk_qfree " " (by decide)))
        (unitOk_qfree op hop))
      (unitOk_append (unitOk_qfree " (" (by decide)) (unitOk_placeholders vs)))
    (unitOk_qfree ")" (by decide))
  have e : col ++ " " ++ op ++ (" (" ++ joinSep ", " (vs.map fun _ => "?")) ++ ")" =
      col ++ " " ++ op ++ " (" ++ joinSep ", " (vs.map fun _ => "?") ++ ")" := by
    rw [← String.append_assoc]
  have e2 : col ++ " " ++ op ++ (" (" ++ joinSep ", " (vs.map renderScalar)) ++ ")" =
      col ++ " " ++ op ++ " (" ++ joinSep ", " (vs.map renderScalar) ++ ")" := by
    rw [← String.append_assoc]
  rw [e, e2] at full
  simpa using full

theorem compileUnit_ok (col : String) (hcol : countQ col = 0)
    (criterion : List (String × Operand)) (ck : String) :
    UnitOk (Sqlongo.compileUnit col criterion ck).1 (Sqlongo.compileUnit col criterion ck).2
      (Sqlongo.compileUnitInline col criterion ck) ∧
    countQ (Sqlongo.compileUnit col criterion ck).1 =
      (Sqlongo.compileUnit col criterion ck).2.length := by
  have hop := countQ_opText ck
  have hsp : countQ " " = 0 := rfl
  have hq1 : countQ " ?" = 1 := rfl
  have hpo : countQ " (" = 0 := rfl
  have hpc : countQ ")" = 0 := rfl
  unfold Sqlongo.compileUnit Sqlongo.compileUnitInline
  cases h : jsLookup criterion ck with
  | none =>
      refine ⟨unitOk_op_scalar col _ hcol hop Scalar.null, ?_⟩
      simp [countQ_append, hcol, hop, hsp, hq1]
  | some opnd =>
      cases opnd with
      | scalar v =>
          refine ⟨unitOk_op_scalar col _ hcol hop v, ?_⟩
          simp [countQ_append, hcol, hop, hsp, hq1]
      | arr vs =>
          refine ⟨unitOk_op_arr col _ hcol hop vs, ?_⟩
          simp only [countQ_append, hcol, hop, hsp, hpo, hpc, countQ_placeholders]
          omega

theorem forall2_append {R : α → β → Prop} :
    ∀ {l1 : List α} {l2 : List β} {l3 : List α} {l4 : List β},
      List.Forall₂ R l1 l2 → List.Forall₂ R l3 l4 → List.Forall₂ R (l1 ++ l3) (l2 ++ l4) := by
  intro l1 l2 l3 l4 h1 h2
  induction h1 with
  | nil => simpa using h2
  | cons hx hxs ih => exact List.Forall₂.cons hx ih

theorem forall2_map_pair {l : List γ} {f : γ → α} {g : γ → β} {R : α → β → Prop}
    (h : ∀ x ∈ l, R (f x) (g x)) : List.Forall₂ R (l.map f) (l.map g) := by
  induction l with
  | nil => simp
  | cons x xs ih =>
      simp only [List.map_cons]
      exact List.Forall₂.cons (h x (by simp)) (ih fun y hy => h y (by simp [hy]))

theorem forall2_flatMap {l : List γ} {f : γ → List α} {g : γ → List β} {R : α → β → Prop}
    (h : ∀ x ∈ l, List.Forall₂ R (f x) (g x)) :
    List.Forall₂ R (l.flatMap f) (l.flatMap g) := by
  induction l with
  | nil => simp
  | cons x xs ih =>
      simp only [List.flatMap_cons]
      exact forall2_append (h x (by simp)) (ih fun y hy => h y (by simp [hy]))

theorem columnUnits_ok (c : Criteria) (col : String) (hcol : countQ col = 0) :
    List.Forall₂ (fun (u : String × List Scalar) (i : String) =>
        UnitOk u.1 u.2 i ∧ countQ u.1 = u.2.length)
      (Sqlongo.columnUnits c col) (Sqlongo.columnUnitsInline c col) := by
  unfold Sqlongo.columnUnits Sqlongo.columnUnitsInline
  cases h : jsLookup c col with
  | none =>
      exact List.Forall₂.cons
        ⟨unitOk_eq_scalar col hcol Scalar.null, countQ_eq_scalar col hcol⟩ List.Forall₂.nil
  | some cr =>
      cases cr with
      | scalar v =>
          exact List.Forall₂.cons
            ⟨unitOk_eq_scalar col hcol v, countQ_eq_scalar col hcol⟩ List.Forall₂.nil
      | obj criterion =>
          exact forall2_map_pair (fun ck _ => compileUnit_ok col hcol criterion ck)

theorem unitsOk_joinSep (us : List (String × List Scalar)) :
    ∀ ws, List.Forall₂ (fun (u : String × List Scalar) (i : String) => UnitOk u.1 u.2 i) us ws →
      UnitOk (joinSep " and " (us.map Prod.fst)) ((us.map Prod.snd).flatten)
        (joinSep " and " ws) := by
  induction us with
  | nil =>
      intro ws h
      cases h
      simpa [joinSep] using unitOk_qfree "" (by decide)
  | cons u us ih =>
      intro ws h
      cases h with
      | cons h1 h2 =>
          cases us with
          | nil =>
              cases h2
              simpa [joinSep] using h1
          | cons u2 us2 =>
              cases h2 with
              | cons h1a h2a =>
                  have ihh := ih _ (List.Forall₂.cons h1a h2a)
                  have full := unitOk_append
                    (unitOk_append h1 (unitOk_qfree " and " (by decide))) ihh
                  simp only [List.map_cons, joinSep, List.flatten_cons]
                  simpa using full

theorem unitsCount_joinSep (us : List (String × List Scalar))
    (h : ∀ u ∈ us, countQ u.1 = u.2.length) :
    countQ (joinSep " and " (us.map Prod.fst)) = ((us.map Prod.snd).flatten).length := by
  rw [countQ_joinSep " and " (by decide), List.length_flatten]
  simp only [List.map_map]
  exact congrArg List.sum (List.map_congr_left fun u hu => by simpa using h u hu)

theorem filteredKeys_countQ (c : Criteria) (s : Schema)
    (hq : ∀ p ∈ c, countQ p.1 = 0) :
    ∀ col ∈ Sqlongo.filteredKeys c s, countQ col = 0 := by
  intro col hcol
  have hmem : col ∈ keysOf c := by
    unfold Sqlongo.filteredKeys at hcol
    exact (List.mem_filter.mp hcol).1
  obtain ⟨p, hp, hpc⟩ := List.mem_map.mp hmem
  exact hpc ▸ hq p hp

theorem columnUnits_count (c : Criteria) (col : String) (hcol : countQ col = 0) :
    ∀ u ∈ Sqlongo.columnUnits c col, countQ u.1 = u.2.length := by
  intro u hu
  cases h : jsLookup c col with
  | none =>
      simp only [Sqlongo.columnUnits, h, List.mem_singleton] at hu
      subst hu
      simpa using countQ_eq_scalar col hcol
  | some cr =>
      cases cr with
      | scalar v =>
          simp only [Sqlongo.columnUnits, h, List.mem_singleton] at hu
          subst hu
          simpa using countQ_eq_scalar col hcol
      | obj criterion =>
          simp only [Sqlongo.columnUnits, h, List.mem_map] at hu
          obtain ⟨ck, _, rfl⟩ := hu
          exact (compileUnit_ok col hcol criterion ck).2

/-- C1 (amended): for the criteria compiler of the part_001/index.js
revisions, and provided additionally that no column key of the criteria
contains the character `?`: whenever every column key appears in the
schema and every operator object holds only recognized operator keys,
the compiled WHERE fragment contains exactly as many `?` placeholders as
there are parameters in the returned list, and substituting the
parameters into the placeholders left to right reproduces the reference
compilation that renders each parameter at its own placeholder — the
parameters appear in the same left-to-right order as their placeholders.
(The part_000 revision and `?`-bearing column names falsify the claim as
stated; see the counterexample.) -/
theorem c1_parseCriteria_placeholder_param_correspondence
    (c : Criteria) (s : Schema)
    (_hcols : ∀ p ∈ c, p.1 ∈ keysOf s)
    (_hops : ∀ p ∈ c, ∀ entries, p.2 = Criterion.obj entries →
      ∀ q ∈ entries, q.1 ∈ keysOf Sqlongo.CRITERION_KEYS)
    (hq : ∀ p ∈ c, countQ p.1 = 0) :
    countQ (Sqlongo.parseCriteria c s).1 = (Sqlongo.parseCriteria c s).2.length ∧
    replaceQs (Sqlongo.parseCriteria c s).1.data (Sqlongo.parseCriteria c s).2 =
      ((Sqlongo.parseCriteriaInline c s).data, []) := by
  have hkeys := filteredKeys_countQ c s hq
  have hcount : ∀ u ∈ (Sqlongo.filteredKeys c s).flatMap (Sqlongo.columnUnits c),
      countQ u.1 = u.2.length := by
    intro u hu
    obtain ⟨col, hcolmem, humem⟩ := List.mem_flatMap.mp hu
    exact columnUnits_count c col (hkeys col hcolmem) u humem
  have hforall : List.Forall₂ (fun (u : String × List Scalar) (i : String) => UnitOk u.1 u.2 i)
      ((Sqlongo.filteredKeys c s).flatMap (Sqlongo.columnUnits c))
      ((Sqlongo.filteredKeys c s).flatMap (Sqlongo.columnUnitsInline c)) :=
    forall2_flatMap (fun col hcolmem =>
      (columnUnits_ok c col (hkeys col hcolmem)).imp (fun _ _ hab => hab.1))
  have hunits := unitsOk_joinSep _ _ hforall
  constructor
  · exact unitsCount_joinSep _ hcount
  · have h0 := hunits [] []
    simp only [Sqlongo.parseCriteria, Sqlongo.parseCriteriaInline]
    simpa [replaceQs] using h0

/-- C1 counterexample, refuting the claim as stated on the code: (i) in
part_001's compiler a schema/criteria column named `a?` yields the
fragment `a? = ?` holding two `?` characters against one parameter,
although the column appears in the schema and no operator object is
involved; (ii) part_000's compiler gives an `$in` array operand no
placeholders at all (it joins the values into the fragment) while still
appending all three elements to the parameter list. -/
theorem c1_counterexample :
    (¬ countQ (Sqlongo.parseCriteria [("a?", Criterion.scalar (Scalar.int 1))]
        [("a?", "int")]).1 =
        (Sqlongo.parseCriteria [("a?", Criterion.scalar (Scalar.int 1))]
          [("a?", "int")]).2.length) ∧
    SqlongoV0.parseCriteria
        [("id", Criterion.obj [("$in", Operand.arr [Scalar.int 3, Scalar.int 4, Scalar.int 5])])]
        [("id", "integer primary key")] =
      Except.ok ("id in (3, 4, 5)", [Scalar.int 3, Scalar.int 4, Scalar.int 5]) ∧
    countQ "id in (3, 4, 5)" = 0 :=
  ⟨by decide, rfl, by decide⟩

/-- Witness for C1's amended theorem at a concrete criteria and schema
(an `$in` array, and a scalar equality on a second column). -/
theorem c1_witness :
    countQ (Sqlongo.parseCriteria
        [("id", Criterion.obj [("$in", Operand.arr [Scalar.int 3, Scalar.int 4])]),
         ("content", Criterion.scalar (Scalar.str "x"))]
        [("id", "integer primary key"), ("content", "text")]).1 =
      (Sqlongo.parseCriteria
        [("id", Criterion.obj [("$in", Operand.arr [Scalar.int 3, Scalar.int 4])]),
         ("content", Criterion.scalar (Scalar.str "x"))]
        [("id", "integer primary key"), ("content", "text")]).2.length ∧
    replaceQs (Sqlongo.parseCriteria
        [("id", Criterion.obj [("$in", Operand.arr [Scalar.int 3, Scalar.int 4])]),
         ("content", Criterion.scalar (Scalar.str "x"))]
        [("id", "integer primary key"), ("content", "text")]).1.data
      (Sqlongo.parseCriteria
        [("id", Criterion.obj [("$in", Operand.arr [Scalar.int 3, Scalar.int 4])]),
         ("content", Criterion.scalar (Scalar.str "x"))]
        [("id", "integer primary key"), ("content", "text")]).2 =
      ((Sqlongo.parseCriteriaInline
        [("id", Criterion.obj [("$in", Operand.arr [Scalar.int 3, Scalar.int 4])]),
         ("content", Criterion.scalar (Scalar.str "x"))]
        [("id", "integer primary key"), ("content", "text")]).data, []) :=
  c1_parseCriteria_placeholder_param_correspondence _ _
    (by decide)
    (by
      intro p hp entries he q hqq
      rcases List.mem_cons.mp hp with rfl | hp2
      · injection he with h
        subst h
        revert q
        decide
      · rcases List.mem_singleton.mp hp2 with rfl
        exact absurd he (by simp))
    (by decide)

theorem mem_keys_of_jsLookup {l : List (String × α)} {k : String} {v : α}
    (h : jsLookup l k = some v) : k ∈ keysOf l := by
  obtain ⟨p, hp, hpv⟩ := Option.map_eq_some'.mp h
  have hmem := List.mem_of_find?_eq_some hp
  have hbeq := List.find?_some hp
  have hk : p.1 = k := by simpa using hbeq
  exact hk ▸ List.mem_map.mpr ⟨p, hmem, rfl⟩

/-- C2: part_001's criterion compilation — a scalar criterion on a
recognized column compiles to the fragment `<column> = ?` with the
scalar as its only parameter; an operator criterion with an array
operand (under any recognized operator) compiles to
`<column> <op> (?, ?, …)` with one `?` per array element and the
elements appended to the parameter list in array order. -/
theorem c2_criterion_scalar_and_array_shapes
    (col col2 : String) (s : Schema) (v : Scalar) (k opText : String) (vs : List Scalar)
    (hcol : col ∈ keysOf s) (hcol2 : col2 ∈ keysOf s)
    (hk : jsLookup Sqlongo.CRITERION_KEYS k = some opText) :
    Sqlongo.parseCriteria [(col2, Criterion.scalar v)] s = (col2 ++ " = ?", [v]) ∧
    Sqlongo.parseCriteria [(col, Criterion.obj [(k, Operand.arr vs)])] s =
      (col ++ " " ++ opText ++ " (" ++ joinSep ", " (vs.map fun _ => "?") ++ ")", vs) ∧
    countQ (joinSep ", " (vs.map fun _ => "?")) = vs.length := by
  have hkmem : k ∈ keysOf Sqlongo.CRITERION_KEYS := mem_keys_of_jsLookup hk
  have hcolm : col ∈ List.map Prod.fst s := hcol
  have hcol2m : col2 ∈ List.map Prod.fst s := hcol2
  have hkm : k ∈ List.map Prod.fst Sqlongo.CRITERION_KEYS := hkmem
  have hk2 : Option.map Prod.snd (List.find? (fun p => p.1 == k) Sqlongo.CRITERION_KEYS) =
      some opText := hk
  refine ⟨?_, ?_, countQ_placeholders vs⟩
  · simp [Sqlongo.parseCriteria, Sqlongo.filteredKeys, Sqlongo.columnUnits,
      keysOf, jsLookup, joinSep, hcol2m]
  · simp [Sqlongo.parseCriteria, Sqlongo.filteredKeys, Sqlongo.columnUnits,
      Sqlongo.compileUnit, keysOf, jsLookup, joinSep, hcolm, hkm, hk2]

/-- Witness for C2 at a concrete schema, scalar criterion and `$in`
array criterion. -/
theorem c2_witness :
    Sqlongo.parseCriteria [("content", Criterion.scalar (Scalar.str "x"))]
        [("id", "integer primary key"), ("content", "text")] =
      ("content" ++ " = ?", [Scalar.str "x"]) ∧
    Sqlongo.parseCriteria
        [("id", Criterion.obj [("$in", Operand.arr [Scalar.int 1, Scalar.int 2])])]
        [("id", "integer primary key"), ("content", "text")] =
      ("id" ++ " " ++ "in" ++ " (" ++
        joinSep ", " ([Scalar.int 1, Scalar.int 2].map fun _ => "?") ++ ")",
        [Scalar.int 1, Scalar.int 2]) ∧
    countQ (joinSep ", " ([Scalar.int 1, Scalar.int 2].map fun _ => "?")) =
      [Scalar.int 1, Scalar.int 2].length :=
  c2_criterion_scalar_and_array_shapes "id" "content"
    [("id", "integer primary key"), ("content", "text")]
    (Scalar.str "x") "$in" "in" [Scalar.int 1, Scalar.int 2]
    (by decide) (by decide) (by decide)

/-- C10: part_001 `count` argument shifting — when the first argument is
itself an object it becomes the criteria and the counted column falls
back to `*`, so `count(criteria)` (where the second argument keeps its
`{}` default) compiles to exactly the same query and parameters as
`count('*', criteria)`, for every criteria object. -/
theorem c10_count_argument_shift (table : String) (c : Criteria) (s : Schema) :
    Sqlongo.count table (Sqlongo.CountArg.obj c) [] s =
      Sqlongo.count table (Sqlongo.CountArg.col "*") c s := rfl

/-- C9 (code bug): the column guard of part_001/index.js `distinct` is
`!Object.keys(schema).indexOf(column)`, which is truthy exactly when the
column is the FIRST schema key.  Evaluating the embedded code: with
schema `{content: 'text'}`, `distinct('content', …)` fails with
`distinct: column content does not exist` although `content` is in the
schema; a column absent from the schema (`nope`) passes the guard, and
so does `content` when it is the second schema key. -/
theorem c9_distinct_column_check_inverted :
    Sqlongo.distinct "test1" "content" [] [("content", "text")] (-1) 0 =
      Except.error (JsErr.error "distinct: column content does not exist") ∧
    (Sqlongo.distinct "test1" "nope" [] [("content", "text")] (-1) 0).isOk = true ∧
    (Sqlongo.distinct "test1" "content" []
      [("id", "integer primary key"), ("content", "text")] (-1) 0).isOk = true :=
  ⟨rfl, rfl, rfl⟩

/-- C8 counterexample: declaring a table with the empty mapping `{}`
does not fail — the empty schema is stored and a creation statement
(with an empty column list) is chained onto `createTableTasks`,
refuting "fails with a SchemaError and no creation statement is
issued" for empty mappings. -/
theorem c8_counterexample :
    Sqlongo.setTable ⟨[], []⟩ "t" (Sqlongo.SchemaArg.obj []) =
      Except.ok ⟨[("t", [])], ["create table if not exists t (  )"]⟩ := rfl

/-- C8 (amended): the part_001 `set` trap rejects exactly the schema
arguments whose `typeof` is not `"object"` (with
`db.<table>: schema must be an object`); every object schema — the
empty mapping included — is stored and its creation statement is chained
onto `createTableTasks` without suspending the caller; `null` (whose
`typeof` is `"object"`) passes the check and then throws a `TypeError`
while the creation template is built. -/
theorem c8_setTable_validation (db : Sqlongo.DbState) (table : String) :
    (∀ t, t ≠ "object" → Sqlongo.setTable db table (Sqlongo.SchemaArg.prim t) =
      Except.error (JsErr.error ("db." ++ table ++ ": schema must be an object"))) ∧
    (∀ m : Schema, Sqlongo.setTable db table (Sqlongo.SchemaArg.obj m) =
      Except.ok ⟨Sqlongo.jsSet db.schemas table m,
        db.pendingCreates ++ [Sqlongo.createStatement table m]⟩) ∧
    Sqlongo.setTable db table Sqlongo.SchemaArg.nul =
      Except.error (JsErr.typeError "Cannot convert undefined or null to object") := by
  refine ⟨?_, ?_, ?_⟩
  · intro t ht
    simp [Sqlongo.setTable, Sqlongo.jsTypeofSchemaArg, ht]
  · intro m
    simp [Sqlongo.setTable, Sqlongo.jsTypeofSchemaArg]
  · simp [Sqlongo.setTable, Sqlongo.jsTypeofSchemaArg]

/-- Witness for C8's amended theorem: a number schema is rejected with
the schema error; a two-column schema is stored and its creation
statement issued. -/
theorem c8_witness :
    Sqlongo.setTable ⟨[], []⟩ "todo" (Sqlongo.SchemaArg.prim "number") =
      Except.error (JsErr.error "db.todo: schema must be an object") ∧
    Sqlongo.setTable ⟨[], []⟩ "todo"
        (Sqlongo.SchemaArg.obj [("id", "integer primary key"), ("content", "text")]) =
      Except.ok ⟨[("todo", [("id", "integer primary key"), ("content", "text")])],
        ["create table if not exists todo ( id integer primary key, content text )"]⟩ :=
  ⟨(c8_setTable_validation ⟨[], []⟩ "todo").1 "number" (by decide),
   ((c8_setTable_validation ⟨[], []⟩ "todo").2.1
     [("id", "integer primary key"), ("content", "text")]).trans rfl⟩

/-- C3 counterexample: (i) in the part_001 revision, `insert` with a row
whose key `bad` is absent from the schema does not fail — the key is
silently dropped and an (empty-column) insert statement is produced;
(ii) in the index.js revision the read-path key filter applied to a
criteria object with the unknown column `bad` fails with
`no such column: bad` instead of silently omitting the column. -/
theorem c3_counterexample :
    Sqlongo.insert "t" (Sqlongo.RowArg.obj [("bad", Scalar.int 1)]) [("id", "int")] =
      Except.ok ("insert into t() values()", []) ∧
    SqlongoIndex.filteredKeys [("bad", Criterion.scalar (Scalar.int 1))] [("id", "int")] =
      Except.error (JsErr.error "no such column: bad") :=
  ⟨rfl, rfl⟩

/-- C3 (amended): each revision applies one key-filter policy on every
path.  In part_001 the filter is permissive everywhere: `insert` on an
object row never fails and every key it compiles is a schema key
(unknown row keys are silently dropped, exactly as unknown criteria
columns are).  In index.js the filter is strict everywhere: whenever the
first untrusted key not present among the trusted keys is some nonempty
`k`, `filteredKeys` — used by insert/update rows and by find/count/remove
criteria alike — fails with `no such column: k`. -/
theorem c3_key_filter_policies (t : String) (r : Row) (s : Schema)
    (u : List (String × α)) (tr : List (String × β)) (k : String)
    (hfind : (keysOf u).find? (fun x => !((keysOf tr).contains x)) = some k)
    (hk : k ≠ "") :
    (Sqlongo.insert t (Sqlongo.RowArg.obj r) s).isOk = true ∧
    (∀ kk ∈ Sqlongo.filteredKeys r s, kk ∈ keysOf s) ∧
    SqlongoIndex.filteredKeys u tr =
      Except.error (JsErr.error ("no such column: " ++ k)) := by
  refine ⟨rfl, ?_, ?_⟩
  · intro kk hkk
    have := (List.mem_filter.mp hkk).2
    simpa using this
  · have hfind2 : List.find? (fun x => !decide (x ∈ keysOf tr)) (keysOf u) = some k := by
      simpa using hfind
    simp [SqlongoIndex.filteredKeys, hfind2, hk]

/-- Witness for C3's amended theorem at a concrete row, schema and
criteria object. -/
theorem c3_witness :
    (Sqlongo.insert "todo" (Sqlongo.RowArg.obj [("bad", Scalar.int 1), ("id", Scalar.int 2)])
      [("id", "int")]).isOk = true ∧
    (∀ kk ∈ Sqlongo.filteredKeys
      [("bad", Scalar.int 1), ("id", Scalar.int 2)] [("id", "int")],
      kk ∈ keysOf [("id", "int")]) ∧
    SqlongoIndex.filteredKeys [("bad", Criterion.scalar (Scalar.int 1))] [("id", "int")] =
      Except.error (JsErr.error ("no such column: " ++ "bad")) :=
  c3_key_filter_policies "todo" [("bad", Scalar.int 1), ("id", Scalar.int 2)]
    [("id", "int")] [("bad", Criterion.scalar (Scalar.int 1))] [("id", "int")]
    "bad" (by decide) (by decide)

/-- C7 counterexample: in the part_001 revision (which has no
declaration check in its proxy `get` trap), `find` on the never-declared
table `todo` fails with the `TypeError` thrown by
`Object.keys(undefined)` — a `TypeError` is not an `Error` with any
message, in particular not one stating the table was used before its
schema was set. -/
theorem c7_counterexample :
    Sqlongo.dbFind ⟨[], []⟩ "todo" [] (-1) 0 =
      Except.error (JsErr.typeError "Cannot convert undefined or null to object") ∧
    (∀ msg, JsErr.typeError "Cannot convert undefined or null to object" ≠
      JsErr.error msg) :=
  ⟨rfl, fun _ h => JsErr.noConfusion h⟩

/-- C7 (amended): only the index.js revision performs the declaration
check — `checkAvailability` on a table with no declared schema fails
with `db.<table> is called before setting its schema`; in the latest
revision (part_001) there is no such check and `find`/`insert` on an
undeclared table fail with the unrelated `TypeError` raised by
`Object.keys(undefined)` inside `filteredKeys`. -/
theorem c7_undeclared_table
    (schemas : List (String × List (String × SqlongoIndex.SchemaVal)))
    (table : String) (db : Sqlongo.DbState) (c : Criteria) (r : Row) (limit offset : Int)
    (hidx : jsLookup schemas table = none) (hdb : jsLookup db.schemas table = none) :
    SqlongoIndex.checkAvailability schemas table =
      Except.error (JsErr.error ("db." ++ table ++ " is called before setting its schema")) ∧
    Sqlongo.dbFind db table c limit offset =
      Except.error (JsErr.typeError "Cannot convert undefined or null to object") ∧
    Sqlongo.dbInsert db table (Sqlongo.RowArg.obj r) =
      Except.error (JsErr.typeError "Cannot convert undefined or null to object") := by
  refine ⟨?_, ?_, ?_⟩
  · simp [SqlongoIndex.checkAvailability, hidx]
  · simp [Sqlongo.dbFind, hdb]
  · simp [Sqlongo.dbInsert, hdb]

/-- Witness for C7's amended theorem on empty registries. -/
theorem c7_witness :
    SqlongoIndex.checkAvailability [] "todo" =
      Except.error (JsErr.error ("db." ++ "todo" ++ " is called before setting its schema")) ∧
    Sqlongo.dbFind ⟨[], []⟩ "todo" [] (-1) 0 =
      Except.error (JsErr.typeError "Cannot convert undefined or null to object") ∧
    Sqlongo.dbInsert ⟨[], []⟩ "todo" (Sqlongo.RowArg.obj [("id", Scalar.int 1)]) =
      Except.error (JsErr.typeError "Cannot convert undefined or null to object") :=
  c7_undeclared_table [] "todo" ⟨[], []⟩ [] [("id", Scalar.int 1)] (-1) 0 rfl rfl

theorem head?_take_one (l : List α) : (l.take 1).head? = l.head? := by
  cases l <;> simp

/-- C5: part_001 `find` — with `limit = 1` (and the default offset) the
operation goes through `db.get` and yields a single row: the first
matching row when one exists, and the not-found sentinel (`undefined`,
here `none`) when no row matches; with any other limit it goes through
`db.all` and yields the ordered list produced by the select, a sublist
of the rows matching the compiled criteria, in store order.  `eval` is
the store's row-predicate reading of the compiled where-fragment and its
parameters. -/
theorem c5_find_limit_contract (eval : String → List Scalar → Row → Bool)
    (rows : List Row) (c : Criteria) (s : Schema) :
    (Sqlongo.find eval rows c s 1 0 =
      Sqlongo.FindResult.one ((rows.filter
        (eval (Sqlongo.parseCriteria c s).1 (Sqlongo.parseCriteria c s).2)).head?)) ∧
    ((∃ r ∈ rows, eval (Sqlongo.parseCriteria c s).1 (Sqlongo.parseCriteria c s).2 r) →
      ∃ row, Sqlongo.find eval rows c s 1 0 = Sqlongo.FindResult.one (some row)) ∧
    ((∀ r ∈ rows, ¬ eval (Sqlongo.parseCriteria c s).1 (Sqlongo.parseCriteria c s).2 r) →
      Sqlongo.find eval rows c s 1 0 = Sqlongo.FindResult.one none) ∧
    (∀ limit offset : Int, limit ≠ 1 →
      Sqlongo.find eval rows c s limit offset =
        Sqlongo.FindResult.many (Sqlongo.sqlSelect
          (eval (Sqlongo.parseCriteria c s).1 (Sqlongo.parseCriteria c s).2)
          rows limit offset) ∧
      List.Sublist (Sqlongo.sqlSelect
          (eval (Sqlongo.parseCriteria c s).1 (Sqlongo.parseCriteria c s).2)
          rows limit offset)
        (rows.filter
          (eval (Sqlongo.parseCriteria c s).1 (Sqlongo.parseCriteria c s).2))) := by
  have hone : Sqlongo.find eval rows c s 1 0 =
      Sqlongo.FindResult.one ((rows.filter
        (eval (Sqlongo.parseCriteria c s).1 (Sqlongo.parseCriteria c s).2)).head?) := by
    simp [Sqlongo.find, Sqlongo.sqlSelect, Sqlongo.applyLimit, Sqlongo.applyOffset,
      head?_take_one]
  refine ⟨hone, ?_, ?_, ?_⟩
  · intro hex
    rw [hone]
    have hne : rows.filter
        (eval (Sqlongo.parseCriteria c s).1 (Sqlongo.parseCriteria c s).2) ≠ [] := by
      simp only [ne_eq, List.filter_eq_nil_iff, not_forall]
      obtain ⟨r, hr, hpr⟩ := hex
      exact ⟨r, hr, by simpa using hpr⟩
    cases hcase : (rows.filter
        (eval (Sqlongo.parseCriteria c s).1 (Sqlongo.parseCriteria c s).2)).head? with
    | none => exact absurd (List.head?_eq_none_iff.mp hcase) hne
    | some row => exact ⟨row, rfl⟩
  · intro hno
    rw [hone]
    have : rows.filter
        (eval (Sqlongo.parseCriteria c s).1 (Sqlongo.parseCriteria c s).2) = [] :=
      List.filter_eq_nil_iff.mpr (fun r hr => by simpa using hno r hr)
    rw [this]
    rfl
  · intro limit offset hlim
    constructor
    · simp [Sqlongo.find, hlim]
    · by_cases h : limit < 0
      · simp only [Sqlongo.sqlSelect, Sqlongo.applyLimit, Sqlongo.applyOffset, h, if_true]
        exact List.drop_sublist _ _
      · simp only [Sqlongo.sqlSelect, Sqlongo.applyLimit, Sqlongo.applyOffset, h, if_false]
        exact (List.take_sublist _ _).trans (List.drop_sublist _ _)

/-- Witness for C5 at a concrete store: two rows with ids 1 and 2, the
evaluator reads the compiled `id > ?` criteria as "id greater than 1";
`find(criteria, 1)` yields the single matching row, `find` on the empty
table yields the sentinel, and `find` with the default limit `-1` yields
the ordered list of matching rows. -/
theorem c5_witness :
    Sqlongo.find
        (fun _ vals r => match vals, jsLookup r "id" with
          | [Scalar.int m], some (Scalar.int n) => decide (m < n)
          | _, _ => false)
        [[("id", Scalar.int 1)], [("id", Scalar.int 2)]]
        [("id", Criterion.obj [("$gt", Operand.scalar (Scalar.int 1))])]
        [("id", "integer primary key")] 1 0 =
      Sqlongo.FindResult.one (some [("id", Scalar.int 2)]) ∧
    Sqlongo.find
        (fun _ vals r => match vals, jsLookup r "id" with
          | [Scalar.int m], some (Scalar.int n) => decide (m < n)
          | _, _ => false)
        []
        [("id", Criterion.obj [("$gt", Operand.scalar (Scalar.int 1))])]
        [("id", "integer primary key")] 1 0 =
      Sqlongo.FindResult.one none ∧
    Sqlongo.find
        (fun _ vals r => match vals, jsLookup r "id" with
          | [Scalar.int m], some (Scalar.int n) => decide (m < n)
          | _, _ => false)
        [[("id", Scalar.int 1)], [("id", Scalar.int 2)]]
        [("id", Criterion.obj [("$gt", Operand.scalar (Scalar.int 1))])]
        [("id", "integer primary key")] (-1) 0 =
      Sqlongo.FindResult.many [[("id", Scalar.int 2)]] := by
  refine ⟨?_, ?_, ?_⟩
  · exact (c5_find_limit_contract _ _ _ _).1.trans (by rfl)
  · exact (c5_find_limit_contract _ _ _ _).2.2.1 (by decide)
  · exact ((c5_find_limit_contract _ _ _ _).2.2.2 (-1) 0 (by decide)).1.trans (by rfl)

/-- C6: part_001 `remove` with the default `limit = -1` and
`offset = 0` — the rowid subselect carries no effective limit, so the
delete removes every row matching the compiled criteria: the remaining
store is exactly the rows the criteria predicate rejects.  Rowids are
assumed pairwise distinct, as the store guarantees. -/
theorem c6_remove_without_limit_removes_all (eval : String → List Scalar → Row → Bool)
    (rows : List (Nat × Row)) (c : Criteria) (s : Schema)
    (hnd : (rows.map Prod.fst).Nodup) :
    Sqlongo.remove eval rows c s (-1) 0 =
      rows.filter (fun q =>
        !(eval (Sqlongo.parseCriteria c s).1 (Sqlongo.parseCriteria c s).2 q.2)) := by
  have hsel : Sqlongo.sqlSelect (fun q : Nat × Row =>
      eval (Sqlongo.parseCriteria c s).1 (Sqlongo.parseCriteria c s).2 q.2) rows (-1) 0 =
      rows.filter (fun q =>
        eval (Sqlongo.parseCriteria c s).1 (Sqlongo.parseCriteria c s).2 q.2) := by
    simp [Sqlongo.sqlSelect, Sqlongo.applyLimit, Sqlongo.applyOffset]
  simp only [Sqlongo.remove, hsel]
  apply List.filter_congr
  intro q hq
  congr 1
  cases hp : eval (Sqlongo.parseCriteria c s).1 (Sqlongo.parseCriteria c s).2 q.2 with
  | true =>
      have hmem : q.1 ∈ (rows.filter (fun q =>
          eval (Sqlongo.parseCriteria c s).1 (Sqlongo.parseCriteria c s).2 q.2)).map
          Prod.fst :=
        List.mem_map.mpr ⟨q, List.mem_filter.mpr ⟨hq, hp⟩, rfl⟩
      simpa using hmem
  | false =>
      have hnot : ¬ q.1 ∈ (rows.filter (fun q =>
          eval (Sqlongo.parseCriteria c s).1 (Sqlongo.parseCriteria c s).2 q.2)).map
          Prod.fst := by
        intro hmem
        obtain ⟨q2, hq2mem, hq2eq⟩ := List.mem_map.mp hmem
        have hq2rows := (List.mem_filter.mp hq2mem).1
        have hq2p := (List.mem_filter.mp hq2mem).2
        have heq : q2 = q := List.inj_on_of_nodup_map hnd hq2rows hq hq2eq
        rw [heq, hp] at hq2p
        exact absurd hq2p (by simp)
      simpa using hnot

/-- Witness for C6: a four-row table with ids 1–4 and the criteria
`{id: {$gt: 1}}` (compiled to `id > ?` with parameter 1, read by the
evaluator as "id greater than 1"); `remove` with no explicit limit
leaves exactly the row with id 1. -/
theorem c6_witness :
    Sqlongo.remove
        (fun _ vals r => match vals, jsLookup r "id" with
          | [Scalar.int m], some (Scalar.int n) => decide (m < n)
          | _, _ => false)
        [(1, [("id", Scalar.int 1)]), (2, [("id", Scalar.int 2)]),
         (3, [("id", Scalar.int 3)]), (4, [("id", Scalar.int 4)])]
        [("id", Criterion.obj [("$gt", Operand.scalar (Scalar.int 1))])]
        [("id", "integer primary key")] (-1) 0 =
      [(1, [("id", Scalar.int 1)])] :=
  (c6_remove_without_limit_removes_all _ _ _ _ (by decide)).trans (by rfl)

theorem reaches_invariant (N : Nat) (prog : List Sqlongo.Action)
    (h0 : prog[0]? = some Sqlongo.Action.awaitCreates) (s : Sqlongo.Sys)
    (h : Sqlongo.Reaches N prog ⟨0, 0⟩ s) :
    s.done ≤ N ∧ (1 ≤ s.pc → s.done = N) ∧ s.pc ≤ prog.length := by
  induction h with
  | refl => exact ⟨Nat.zero_le N, fun hpc => absurd hpc (by decide), Nat.zero_le _⟩
  | @tail b c hr hstep ih =>
      cases hstep with
      | finishCreate hlt =>
          refine ⟨by dsimp only; omega, ?_, by dsimp only; exact ih.2.2⟩
          dsimp only
          intro hpc
          have := ih.2.1 hpc
          omega
      | runAwait ht hd =>
          have hlen : b.pc < prog.length := (List.getElem?_eq_some_iff.mp ht).1
          exact ⟨ih.1, fun _ => hd, by dsimp only; omega⟩
      | runSql stmt ht =>
          have hlen : b.pc < prog.length := (List.getElem?_eq_some_iff.mp ht).1
          refine ⟨ih.1, ?_, by dsimp only; omega⟩
          dsimp only
          intro _
          cases hpc : b.pc with
          | zero =>
              rw [hpc, h0] at ht
              exact absurd (Option.some.inj ht) (by simp)
          | succ n => exact ih.2.1 (by omega)

theorem reaches_all_creates (N : Nat) (prog : List Sqlongo.Action) :
    ∀ (k d pc : Nat), N - d = k → d ≤ N →
      Sqlongo.Reaches N prog ⟨d, pc⟩ ⟨N, pc⟩ := by
  intro k
  induction k with
  | zero =>
      intro d pc hk hle
      have hd : d = N := by omega
      subst hd
      exact Relation.ReflTransGen.refl
  | succ n ih =>
      intro d pc hk hle
      have hlt : d < N := by omega
      exact Relation.ReflTransGen.head (Sqlongo.Step.finishCreate ⟨d, pc⟩ hlt)
        (ih (d + 1) pc (by omega) (by omega))

/-- C4: in the interleaving model of part_001, every data operation's
body is `await createTableTasks` followed by its single store call, and
(i) whenever the operation has advanced past its first action — in
particular whenever its SQL has been handed to the store — every
creation task issued so far has resolved; (ii) from any reachable state
the run can always complete: the pending creations can finish and the
operation then passes the barrier and executes its statement, so an
insert issued right after declaring a table still succeeds. -/
theorem c4_barrier_before_sql (op : Sqlongo.DataOp) (N : Nat) (s : Sqlongo.Sys)
    (h : Sqlongo.Reaches N (Sqlongo.opProgram op) ⟨0, 0⟩ s) :
    (1 ≤ s.pc → s.done = N) ∧
    (∃ s2, Sqlongo.Reaches N (Sqlongo.opProgram op) s s2 ∧ s2.pc = 2 ∧ s2.done = N) ∧
    Sqlongo.opProgram op =
      [Sqlongo.Action.awaitCreates, Sqlongo.Action.sql (Sqlongo.opStatement op)] := by
  obtain ⟨d, pc⟩ := s
  have hinv := reaches_invariant N (Sqlongo.opProgram op) rfl ⟨d, pc⟩ h
  refine ⟨hinv.2.1, ?_, rfl⟩
  have hdle : d ≤ N := hinv.1
  have hfin : Sqlongo.Reaches N (Sqlongo.opProgram op) ⟨d, pc⟩ ⟨N, pc⟩ :=
    reaches_all_creates N (Sqlongo.opProgram op) (N - d) d pc rfl hdle
  have hpc2 : pc ≤ 2 := by simpa [Sqlongo.opProgram] using hinv.2.2
  interval_cases pc
  · refine ⟨⟨N, 2⟩, ?_, rfl, rfl⟩
    refine hfin.trans ?_
    refine Relation.ReflTransGen.head (Sqlongo.Step.runAwait ⟨N, 0⟩ rfl rfl) ?_
    exact Relation.ReflTransGen.head (Sqlongo.Step.runSql ⟨N, 1⟩ _ rfl)
      Relation.ReflTransGen.refl
  · refine ⟨⟨N, 2⟩, ?_, rfl, rfl⟩
    refine hfin.trans ?_
    exact Relation.ReflTransGen.head (Sqlongo.Step.runSql ⟨N, 1⟩ _ rfl)
      Relation.ReflTransGen.refl
  · exact ⟨⟨N, 2⟩, hfin, rfl, rfl⟩

/-- Witness for C4: with one declared table (`N = 1`), the state with
the barrier passed (`pc = 1`) after the creation resolved is reachable;
the theorem applied there confirms the creation had resolved, that the
run completes, and the shape of the insert body. -/
theorem c4_witness :
    ((1 : Nat) ≤ (Sqlongo.Sys.mk 1 1).pc → (Sqlongo.Sys.mk 1 1).done = 1) ∧
    (∃ s2, Sqlongo.Reaches 1 (Sqlongo.opProgram Sqlongo.DataOp.insert) ⟨1, 1⟩ s2 ∧
      s2.pc = 2 ∧ s2.done = 1) ∧
    Sqlongo.opProgram Sqlongo.DataOp.insert =
      [Sqlongo.Action.awaitCreates,
       Sqlongo.Action.sql (Sqlongo.opStatement Sqlongo.DataOp.insert)] :=
  c4_barrier_before_sql Sqlongo.DataOp.insert 1 ⟨1, 1⟩
    (Relation.ReflTransGen.head (Sqlongo.Step.finishCreate ⟨0, 0⟩ (by decide))
      (Relation.ReflTransGen.head (Sqlongo.Step.runAwait ⟨1, 0⟩ rfl rfl)
        Relation.ReflTransGen.refl))

/-- C2 counterexample, refuting the claim as stated on the code: in the
part_000 revision a sequence operand (here under the recognized operator
`$gt`) is compiled by joining the rendered values into the fragment —
`id > (1, 2)` holds no placeholder at all — while the two elements are
still appended to the parameter list. -/
theorem c2_counterexample :
    SqlongoV0.parseCriteria
        [("id", Criterion.obj [("$gt", Operand.arr [Scalar.int 1, Scalar.int 2])])]
        [("id", "int")] =
      Except.ok ("id > (1, 2)", [Scalar.int 1, Scalar.int 2]) ∧
    countQ "id > (1, 2)" = 0 :=
  ⟨rfl, by decide⟩
